import Mathlib

/-!
Verification of the Chart rendering core (`lib/ReactViews/Custom/Chart/Chart.jsx`)

Shallow embedding of the chart component: axis grouping by unit (`yAxes`),
legend derivation (`legends`), per-item render dispatch (`renderChartItem`),
the guard ladder of `renderChart`, the effective-width formula of `render`,
and the resize-listener lifecycle of the `Sized` measurement component.

Modelling conventions:
* JS numbers that hold widths/heights are modelled as `Nat` (the spec fixes
  widths to non-negative numbers; `getBoundingClientRect().width` is ≥ 0).
* `getColor()` is a pure accessor, modelled as a function `Unit → String`.
* A JS function that can fall off the end without returning (the dispatch
  with no matching type) returns `Option DrawingOp`, with `none` for
  `undefined`.
* The external drawing primitives (`VictoryLine`, `renderMomentLines`,
  `renderMomentPoints`) are out of scope; the embedding records the exact
  arguments the core hands them, as constructors of `DrawingOp`.
* `x || y` on a JS number is `y` when `x` is `0` (or absent), else `x`;
  this truthiness is modelled explicitly in `jsOr`.
-/

/-- A point record of a chart item. Strategy-specific extra fields are out of
scope; the core only copies points and enriches them with `units`/`name`. -/
structure Point where
  x : Int
  y : Int
deriving DecidableEq, Repr

/-- A point enriched with its series' `units` and `name`, as built by the
default line renderer (`data.points.map(p => ({...p, units, name}))`). -/
structure EnrichedPoint where
  x : Int
  y : Int
  units : String
  name : String
deriving DecidableEq, Repr

/-- One chart item (data series), as consumed by `Chart`. `getColor` is the
item's pure color accessor. -/
structure ChartItem where
  type : String
  units : String
  name : String
  points : List Point
  getColor : Unit → String

/-- A derived Y axis: `{units: data.units, color: data.getColor()}`. -/
structure Axis where
  units : String
  color : String
deriving DecidableEq, Repr

/-- A derived legend entry:
`{name, symbol: {fill: getColor(), type: "square"}, labels: {fill: "white"}}`. -/
structure LegendEntry where
  name : String
  symbolFill : String
  symbolType : String
  labelsFill : String
deriving DecidableEq, Repr

/-- The X-axis specification `{units, scale}`. -/
structure XAxisSpec where
  units : String
  scale : String
deriving DecidableEq, Repr

/-- A drawing operation handed to the drawing layer. Each constructor records
the arguments the core passes to the corresponding external primitive:
`VictoryLine` (key, enriched data, stroke and label color from `getColor()`),
`renderMomentLines(chartItem, index)` and
`renderMomentPoints(chartItem, chartItems, index)`.
`custom` stands for whatever element a host-supplied `renderLine` override
produces. -/
inductive DrawingOp where
  | victoryLine (key : Nat) (data : List EnrichedPoint) (stroke : String) (labelsFill : String)
  | momentLines (item : ChartItem) (index : Nat)
  | momentPoints (item : ChartItem) (siblings : List ChartItem) (index : Nat)
  | custom (tag : Nat)

/-- The props of `Chart` that the core reads. `domain`, `theme` and
`containerComponent` are opaque pass-throughs, modelled as plain strings.
`renderLine` is the optional host override of the line strategy. The other
render overrides (`renderLegends`, `renderXAxis`, `renderYAxis`) produce
external drawing elements; the embedding records the data the core hands
them (legend list and width, axis units, axis list) in the composed chart. -/
structure ChartProps where
  width : Option Nat
  height : Nat
  domain : Option String
  chartItems : List ChartItem
  xAxis : Option XAxisSpec
  containerComponent : Option String
  theme : String
  renderLine : Option (ChartItem → Nat → DrawingOp)

/-- The result of `renderChart`: either the "No data available" placeholder
`<div style={{height}}>` or the composed `VictoryChart` with its legends,
X axis, Y axes and per-item drawings in order. -/
inductive RenderedChart where
  | noData (height : Nat)
  | chart (width height : Nat) (domain : Option String) (theme : String)
      (scale : String) (containerComponent : Option String)
      (legends : List LegendEntry) (xAxisUnits : String)
      (yAxes : List Axis) (drawings : List (Option DrawingOp))

/-- Source: `const chartMinWidth = 110`. -/
def chartMinWidth : Nat := 110

/-- lodash `uniqBy` with an accumulator of already-seen keys: keeps the first
element for each key, in input order. -/
def uniqByAux [DecidableEq β] (key : α → β) : List α → List β → List α
  | [], _ => []
  | x :: rest, seen =>
    if key x ∈ seen then uniqByAux key rest seen
    else x :: uniqByAux key rest (key x :: seen)

/-- lodash `uniqBy(array, iteratee)`: first occurrence per key, input order. -/
def uniqBy [DecidableEq β] (xs : List α) (key : α → β) : List α :=
  uniqByAux key xs []

/-- Source `Chart.yAxes`:
`uniqBy(chartItems, ({units}) => units).map(data => ({units: data.units, color: data.getColor()}))`. -/
def Chart.yAxes (chartItems : List ChartItem) : List Axis :=
  (uniqBy chartItems (fun item => item.units)).map fun data =>
    { units := data.units, color := data.getColor () }

/-- Source `Chart.legends`: one entry per item with the item's name, a square swatch
filled with `getColor()`, and white labels. -/
def Chart.legends (chartItems : List ChartItem) : List LegendEntry :=
  chartItems.map fun item =>
    { name := item.name
      symbolFill := item.getColor ()
      symbolType := "square"
      labelsFill := "white" }

/-- Source `Chart.renderLine` (the default line strategy): a `VictoryLine` keyed by
`index`, whose data is the item's points each enriched with the item's
`units` and `name`, with stroke and label fill both `data.getColor()`. -/
def Chart.renderLine (data : ChartItem) (index : Nat) : DrawingOp :=
  DrawingOp.victoryLine index
    (data.points.map fun p => { x := p.x, y := p.y, units := data.units, name := data.name })
    (data.getColor ()) (data.getColor ())

/-- Source `Chart.renderChartItem(chartItem, chartItems, index)`: dispatch on
`chartItem.type`. `line` uses `this.props.renderLine || this.renderLine`
applied to `(chartItem, index)`; `momentLines` gets only the item and index;
`momentPoints` additionally gets the full sibling list. Any other type falls
off the end (`none`). -/
def Chart.renderChartItem (renderLineProp : Option (ChartItem → Nat → DrawingOp))
    (chartItem : ChartItem) (chartItems : List ChartItem) (index : Nat) :
    Option DrawingOp :=
  if chartItem.type = "line" then
    some ((renderLineProp.getD Chart.renderLine) chartItem index)
  else if chartItem.type = "momentLines" then
    some (DrawingOp.momentLines chartItem index)
  else if chartItem.type = "momentPoints" then
    some (DrawingOp.momentPoints chartItem chartItems index)
  else
    none

/-- The `<For each="chartItem" index="i" of={chartItems}>` loop body:
each item dispatched with its index and the full item list. -/
def Chart.renderDrawings (renderLineProp : Option (ChartItem → Nat → DrawingOp))
    (chartItems : List ChartItem) : List (Option DrawingOp) :=
  chartItems.enum.map fun p => Chart.renderChartItem renderLineProp p.2 chartItems p.1

/-- Source `Chart.renderChart(width, height)`: `null` when no `xAxis` prop; the
"No data available" placeholder (sized to `height`) when no item has points;
otherwise the composed `VictoryChart`. -/
def Chart.renderChart (props : ChartProps) (width height : Nat) : Option RenderedChart :=
  match props.xAxis with
  | none => none
  | some xAxis =>
    let hasData := props.chartItems.any fun c => c.points.length > 0
    if hasData = false then
      some (RenderedChart.noData height)
    else
      some (RenderedChart.chart width height props.domain props.theme xAxis.scale
        props.containerComponent (Chart.legends props.chartItems) xAxis.units
        (Chart.yAxes props.chartItems)
        (Chart.renderDrawings props.renderLine props.chartItems))

/-- JS `this.props.width || parentWidth`: the prop when present and nonzero,
else the measured width. -/
def jsOr (propWidth : Option Nat) (parentWidth : Nat) : Nat :=
  match propWidth with
  | none => parentWidth
  | some w => if w = 0 then parentWidth else w

/-- The width `Chart.render` passes to `renderChart`:
`Math.max(chartMinWidth, this.props.width || parentWidth)`. -/
def Chart.effectiveWidth (propWidth : Option Nat) (parentWidth : Nat) : Nat :=
  Nat.max chartMinWidth (jsOr propWidth parentWidth)

/-- Source `Chart.render`: wraps `renderChart` in `Sized`, handing it the effective
width and the `height` prop. `parentWidth` is the width published by `Sized`. -/
def Chart.render (props : ChartProps) (parentWidth : Nat) : Option RenderedChart :=
  Chart.renderChart props (Chart.effectiveWidth props.width parentWidth) props.height

/-! The `Sized` measurement component

`Sized` registers `this.updateWidth.bind(this)` as a window `resize` listener
on mount and calls `removeEventListener` with `this.updateWidth.bind(this)`
on unmount. In JS, every call of `Function.prototype.bind` allocates a fresh
function object, and `removeEventListener` removes a listener only when given
the very same function object that was registered. The embedding models
function identity by allocating a fresh id per `bind` call. -/

/-- The window's `resize` listener list plus a counter allocating fresh
function-object identities for `bind` calls. -/
structure ResizeEnv where
  listeners : List Nat
  nextFnId : Nat
deriving DecidableEq, Repr

/-- Models `this.updateWidth.bind(this)`: allocates a fresh function object. -/
def bindUpdateWidth (w : ResizeEnv) : Nat × ResizeEnv :=
  (w.nextFnId, { w with nextFnId := w.nextFnId + 1 })

/-- Models `window.addEventListener("resize", fn)`. -/
def addResizeListener (w : ResizeEnv) (fnId : Nat) : ResizeEnv :=
  { w with listeners := w.listeners ++ [fnId] }

/-- Models `window.removeEventListener("resize", fn)`: removes `fn` only if this very
function object is registered; otherwise a no-op. -/
def removeResizeListener (w : ResizeEnv) (fnId : Nat) : ResizeEnv :=
  { w with listeners := w.listeners.erase fnId }

/-- The observable state of one `Sized` instance: the attached container
element (carrying its current bounding-rect width) and the published width. -/
structure SizedState where
  containerElement : Option Nat
  width : Nat
deriving DecidableEq, Repr

/-- Source `Sized.updateWidth`: re-measures only when an element is attached. -/
def Sized.updateWidth (s : SizedState) : SizedState :=
  match s.containerElement with
  | some el => { s with width := el }
  | none => s

/-- Source `Sized.componentDidMount`: measure once, then register a freshly bound
`updateWidth` as the window resize listener. Returns the registered
function id so the lifecycle can be traced. -/
def Sized.componentDidMount (w : ResizeEnv) (s : SizedState) :
    Nat × ResizeEnv × SizedState :=
  let s' := Sized.updateWidth s
  let p := bindUpdateWidth w
  (p.1, addResizeListener p.2 p.1, s')

/-- Source `Sized.componentWillUnmount`: calls `removeEventListener` with a *newly*
bound `updateWidth` — a fresh function object, allocated here. -/
def Sized.componentWillUnmount (w : ResizeEnv) : ResizeEnv :=
  let p := bindUpdateWidth w
  removeResizeListener p.2 p.1

/-- A window `resize` event: every registered listener runs; each listener in
this model is a bound `updateWidth` of the single `Sized` instance. -/
def dispatchResize (w : ResizeEnv) (s : SizedState) : SizedState :=
  w.listeners.foldl (fun st _ => Sized.updateWidth st) s

/-! Spec-side definitions, for refinement comparisons. -/

/-- Modelled from the spec (section 4.1), to compare against `Chart.yAxes`:
traverse `chartItems` in given order; for each item, if its `units` has not
been seen, emit a new axis record `{units, color: item.getColor()}`;
otherwise skip. -/
def deriveAxesSpec : List ChartItem → List String → List Axis
  | [], _ => []
  | item :: rest, seen =>
    if item.units ∈ seen then deriveAxesSpec rest seen
    else { units := item.units, color := item.getColor () } :: deriveAxesSpec rest (item.units :: seen)

/-- Modelled from the spec (section 8), to compare against
`Chart.effectiveWidth`: "max(110, suppliedWidth or measuredWidth)", the
measured width used when the supplied width is 0 or absent. -/
def effectiveWidthSpecFormula (supplied : Option Nat) (measured : Nat) : Nat :=
  Nat.max 110 (match supplied with
    | none => measured
    | some w => if w = 0 then measured else w)

/-- The part of a chart item that axis and legend derivation can observe:
its `units`, its `name`, and the value its color accessor returns. -/
def ChartItem.observe (item : ChartItem) : String × String × String :=
  (item.units, item.name, item.getColor ())

/-- Axis derivation expressed on observations only. -/
def axesFromObs : List (String × String × String) → List String → List Axis
  | [], _ => []
  | o :: rest, seen =>
    if o.1 ∈ seen then axesFromObs rest seen
    else { units := o.1, color := o.2.2 } :: axesFromObs rest (o.1 :: seen)

/-- Legend derivation expressed on observations only. -/
def legendsFromObs (obs : List (String × String × String)) : List LegendEntry :=
  obs.map fun o =>
    { name := o.2.1, symbolFill := o.2.2, symbolType := "square", labelsFill := "white" }

/-! Concrete example values, used by the witness theorems. -/

/-- A line series in metres. -/
def itemLineA : ChartItem :=
  { type := "line", units := "m", name := "A", points := [{ x := 0, y := 1 }],
    getColor := fun _ => "red" }

/-- Same observable `units`/`name`/color as `itemLineA`, but a different
`type`, different `points` and a differently written color accessor. -/
def itemLineA' : ChartItem :=
  { type := "unknownKind", units := "m", name := "A", points := [],
    getColor := fun _ => String.append "r" "ed" }

/-- A `momentLines` series. -/
def itemMomentLinesC : ChartItem :=
  { type := "momentLines", units := "m", name := "C", points := [{ x := 0, y := 0 }],
    getColor := fun _ => "blue" }

/-- A `momentPoints` series. -/
def itemMomentPointsD : ChartItem :=
  { type := "momentPoints", units := "s", name := "D", points := [{ x := 1, y := 2 }],
    getColor := fun _ => "green" }

/-- An item with an unrecognized `type` and no points. -/
def itemUnknownE : ChartItem :=
  { type := "unknownKind", units := "m", name := "E", points := [],
    getColor := fun _ => "gray" }

/-- A host `renderLine` override. -/
def ovExample : ChartItem → Nat → DrawingOp := fun _ i => DrawingOp.custom i

/-- Props with the `xAxis` prop missing. -/
def propsNoXAxis : ChartProps :=
  { width := none, height := 110, domain := none, chartItems := [itemLineA],
    xAxis := none, containerComponent := none, theme := "material", renderLine := none }

/-- Props whose only item has an empty point sequence. -/
def propsEmptyPoints : ChartProps :=
  { width := none, height := 42, domain := none, chartItems := [itemUnknownE],
    xAxis := some { units := "time", scale := "time" }, containerComponent := none,
    theme := "material", renderLine := none }

/-- Props with data and an `xAxis`. -/
def propsWithData : ChartProps :=
  { width := none, height := 110, domain := none, chartItems := [itemLineA],
    xAxis := some { units := "time", scale := "time" }, containerComponent := none,
    theme := "material", renderLine := none }

/-! Helper lemmas. -/

lemma uniqByAux_map_axes (xs : List ChartItem) (seen : List String) :
    (uniqByAux (fun item => item.units) xs seen).map
      (fun data => ({ units := data.units, color := data.getColor () } : Axis)) =
    deriveAxesSpec xs seen := by
  induction xs generalizing seen with
  | nil => rfl
  | cons x rest ih =>
    simp only [uniqByAux, deriveAxesSpec]
    split
    · exact ih _
    · simp [ih]

lemma yAxes_eq_spec (items : List ChartItem) :
    Chart.yAxes items = deriveAxesSpec items [] :=
  uniqByAux_map_axes items []

lemma mem_map_key_uniqByAux [DecidableEq β] (key : α → β) (xs : List α)
    (seen : List β) (b : β) :
    b ∈ (uniqByAux key xs seen).map key ↔ b ∈ xs.map key ∧ b ∉ seen := by
  induction xs generalizing seen with
  | nil => simp [uniqByAux]
  | cons x rest ih =>
    simp only [uniqByAux]
    by_cases h : key x ∈ seen
    · rw [if_pos h, ih]
      simp only [List.map_cons, List.mem_cons]
      constructor
      · rintro ⟨hm, hs⟩
        exact ⟨Or.inr hm, hs⟩
      · rintro ⟨hm | hm, hs⟩
        · exact absurd (by rw [hm]; exact h) hs
        · exact ⟨hm, hs⟩
    · rw [if_neg h]
      simp only [List.map_cons, List.mem_cons, ih, List.mem_cons]
      constructor
      · rintro (hb | ⟨hm, hs⟩)
        · exact ⟨Or.inl hb, by rw [hb]; exact h⟩
        · exact ⟨Or.inr hm, fun hc => hs (Or.inr hc)⟩
      · rintro ⟨hb | hm, hs⟩
        · exact Or.inl hb
        · by_cases hbx : b = key x
          · exact Or.inl hbx
          · exact Or.inr ⟨hm, fun hc => hc.elim (fun h1 => hbx h1) hs⟩

lemma nodup_map_key_uniqByAux [DecidableEq β] (key : α → β) (xs : List α)
    (seen : List β) :
    ((uniqByAux key xs seen).map key).Nodup := by
  induction xs generalizing seen with
  | nil => simp [uniqByAux]
  | cons x rest ih =>
    simp only [uniqByAux]
    split
    · exact ih _
    · simp only [List.map_cons, List.nodup_cons]
      refine ⟨fun hmem => ?_, ih _⟩
      rw [mem_map_key_uniqByAux] at hmem
      exact hmem.2 (List.mem_cons_self _ _)

lemma yAxes_map_units (items : List ChartItem) :
    (Chart.yAxes items).map Axis.units =
      (uniqByAux (fun item => item.units) items []).map (fun item => item.units) := by
  simp [Chart.yAxes, uniqBy, List.map_map]

lemma mem_yAxes_units_iff (items : List ChartItem) (u : String) :
    u ∈ (Chart.yAxes items).map Axis.units ↔ u ∈ items.map (fun item => item.units) := by
  rw [yAxes_map_units, mem_map_key_uniqByAux]
  simp

lemma deriveAxesSpec_eq_obs (xs : List ChartItem) (seen : List String) :
    deriveAxesSpec xs seen = axesFromObs (xs.map ChartItem.observe) seen := by
  induction xs generalizing seen with
  | nil => rfl
  | cons x rest ih =>
    simp only [deriveAxesSpec, List.map_cons, axesFromObs, ChartItem.observe]
    split
    · exact ih _
    · simp [ih]

lemma legends_eq_obs (xs : List ChartItem) :
    Chart.legends xs = legendsFromObs (xs.map ChartItem.observe) := by
  simp [Chart.legends, legendsFromObs, List.map_map, ChartItem.observe]

lemma effectiveWidth_eq_specFormula (w : Option Nat) (p : Nat) :
    Chart.effectiveWidth w p = effectiveWidthSpecFormula w p := by
  cases w with
  | none => rfl
  | some v => rfl

lemma renderDrawings_getElem (ov : Option (ChartItem → Nat → DrawingOp))
    (items : List ChartItem) (i : Nat) (item : ChartItem)
    (hget : items[i]? = some item) :
    (Chart.renderDrawings ov items)[i]? =
      some (Chart.renderChartItem ov item items i) := by
  simp [Chart.renderDrawings, List.getElem?_map, List.getElem?_enum, hget]

lemma renderChartItem_unknown (ov : Option (ChartItem → Nat → DrawingOp))
    (item : ChartItem) (items : List ChartItem) (i : Nat)
    (hline : item.type ≠ "line") (hml : item.type ≠ "momentLines")
    (hmp : item.type ≠ "momentPoints") :
    Chart.renderChartItem ov item items i = none := by
  simp [Chart.renderChartItem, hline, hml, hmp]

lemma any_points_eq_false (items : List ChartItem)
    (h : ∀ it ∈ items, it.points = []) :
    (items.any fun c => c.points.length > 0) = false := by
  simp only [List.any_eq_false, decide_eq_true_eq]
  intro it hit
  simp [h it hit]

lemma any_points_eq_true (items : List ChartItem) (it : ChartItem)
    (hit : it ∈ items) (hne : it.points ≠ []) :
    (items.any fun c => c.points.length > 0) = true := by
  rw [List.any_eq_true]
  exact ⟨it, hit, by simpa [List.length_pos] using hne⟩

/-! Claim theorems. -/

/-- C1: for every list of chart items, the derived Y-axis sequence equals the
spec's first-seen traversal (one new axis, colored by that item's
`getColor()`, at the first occurrence of each `units` value), its `units`
values contain no duplicate, and a `units` value appears among the axes
exactly when some item in the list carries it. -/
theorem yAxes_one_axis_per_unit_first_seen (items : List ChartItem) :
    Chart.yAxes items = deriveAxesSpec items [] ∧
    ((Chart.yAxes items).map Axis.units).Nodup ∧
    ∀ u, u ∈ (Chart.yAxes items).map Axis.units ↔
      u ∈ items.map (fun item => item.units) := by
  refine ⟨yAxes_eq_spec items, ?_, fun u => mem_yAxes_units_iff items u⟩
  rw [yAxes_map_units]
  exact nodup_map_key_uniqByAux _ items []

/-- C5: the derived legend sequence has exactly one entry per chart item, in
item order: the entry at every position carries that item's name, a square
swatch filled with the item's `getColor()` result, and the fixed white label
color. -/
theorem legends_one_entry_per_item (items : List ChartItem) :
    (Chart.legends items).length = items.length ∧
    ∀ i : Nat, (Chart.legends items)[i]? = (items[i]?).map fun item =>
      { name := item.name, symbolFill := item.getColor ()
        symbolType := "square", labelsFill := "white" } := by
  refine ⟨List.length_map _ _, fun i => ?_⟩
  simp [Chart.legends, List.getElem?_map]

/-- C10: axis and legend derivation are deterministic pure functions of the
observable parts of the item list: two lists agreeing pointwise on `units`,
`name` and the value returned by `getColor()` derive equal axis sequences and
equal legend sequences. -/
theorem derivations_pure (xs ys : List ChartItem)
    (h : xs.map ChartItem.observe = ys.map ChartItem.observe) :
    Chart.yAxes xs = Chart.yAxes ys ∧ Chart.legends xs = Chart.legends ys := by
  constructor
  · rw [yAxes_eq_spec, yAxes_eq_spec, deriveAxesSpec_eq_obs, deriveAxesSpec_eq_obs, h]
  · rw [legends_eq_obs, legends_eq_obs, h]

/-- C10 witness: two one-item lists differing in `type`, `points` and the
syntactic form of the color accessor, but with equal observations, derive
equal axes and legends. -/
theorem derivations_pure_witness :
    Chart.yAxes [itemLineA] = Chart.yAxes [itemLineA'] ∧
    Chart.legends [itemLineA] = Chart.legends [itemLineA'] :=
  derivations_pure [itemLineA] [itemLineA'] rfl

/-- C3: `render` hands `renderChart` exactly the spec's width formula
max(110, suppliedWidth or measuredWidth): the measured width is substituted
whenever the supplied width prop is absent or 0, and the nonzero supplied
width is used otherwise. -/
theorem effective_width_or_formula (props : ChartProps) (parentWidth v : Nat) :
    Chart.render props parentWidth =
      Chart.renderChart props (effectiveWidthSpecFormula props.width parentWidth)
        props.height ∧
    Chart.effectiveWidth none parentWidth = Nat.max 110 parentWidth ∧
    Chart.effectiveWidth (some 0) parentWidth = Nat.max 110 parentWidth ∧
    (v ≠ 0 → Chart.effectiveWidth (some v) parentWidth = Nat.max 110 v) := by
  refine ⟨?_, rfl, rfl, fun hv => ?_⟩
  · rw [Chart.render, effectiveWidth_eq_specFormula]
  · simp [Chart.effectiveWidth, jsOr, hv, chartMinWidth]

/-- C3 witness: with no width prop and measured width 500 the composed width
is the spec formula's value, and a supplied width 200 over a measured 500
clamps to max(110, 200). -/
theorem effective_width_or_formula_witness :
    Chart.render propsWithData 500 =
      Chart.renderChart propsWithData (effectiveWidthSpecFormula none 500) 110 ∧
    Chart.effectiveWidth (some 200) 500 = Nat.max 110 200 :=
  ⟨(effective_width_or_formula propsWithData 500 200).1,
   (effective_width_or_formula propsWithData 500 200).2.2.2 (by decide)⟩

/-- C8 counterexample: the claim predicts the larger of supplied and measured
width, max(110, max(200, 500)) = 500, but with supplied width 200 and
measured width 500 the code computes 200. -/
theorem effective_width_ignores_larger_measured :
    Chart.effectiveWidth (some 200) 500 = 200 ∧
    Nat.max 110 (Nat.max 200 500) = 500 ∧ (200 : Nat) ≠ 500 :=
  ⟨rfl, rfl, by decide⟩

/-- C8 (amended): the effective chart width is max(110, suppliedWidth) when a
nonzero width prop is supplied — the supplied width takes precedence over the
measured width even when the measured width is larger — and
max(110, measuredWidth) when the width prop is absent or 0. -/
theorem effective_width_supplied_precedence (v parentWidth : Nat) (hv : v ≠ 0) :
    Chart.effectiveWidth (some v) parentWidth = Nat.max 110 v ∧
    Chart.effectiveWidth none parentWidth = Nat.max 110 parentWidth ∧
    Chart.effectiveWidth (some 0) parentWidth = Nat.max 110 parentWidth :=
  ⟨by simp [Chart.effectiveWidth, jsOr, hv, chartMinWidth], rfl, rfl⟩

/-- C8 witness: a nonzero supplied width 150 with a larger measured width 500
yields max(110, 150). -/
theorem effective_width_supplied_precedence_witness :
    Chart.effectiveWidth (some 150) 500 = Nat.max 110 150 :=
  (effective_width_supplied_precedence 150 500 (by decide)).1

/-- C4: dispatch is keyed on `item.type` with the stated argument asymmetry:
a supplied line override fully replaces the default line strategy for every
`line` item and receives `(item, index)`; without an override the default
line strategy runs; a `momentLines` item's strategy receives only the item
and its index, and its result is independent of the sibling list; a
`momentPoints` item's strategy alone receives the full sibling list. -/
theorem dispatch_keyed_on_type
    (ovOpt : Option (ChartItem → Nat → DrawingOp)) (ov : ChartItem → Nat → DrawingOp)
    (item : ChartItem) (items items' : List ChartItem) (i : Nat) :
    (item.type = "line" →
      Chart.renderChartItem (some ov) item items i = some (ov item i) ∧
      Chart.renderChartItem none item items i = some (Chart.renderLine item i)) ∧
    (item.type = "momentLines" →
      Chart.renderChartItem ovOpt item items i = some (DrawingOp.momentLines item i) ∧
      Chart.renderChartItem ovOpt item items i =
        Chart.renderChartItem ovOpt item items' i) ∧
    (item.type = "momentPoints" →
      Chart.renderChartItem ovOpt item items i =
        some (DrawingOp.momentPoints item items i)) := by
  refine ⟨fun h => ?_, fun h => ?_, fun h => ?_⟩ <;>
    simp [Chart.renderChartItem, h]

/-- C4 witness: the three strategies at concrete items: an override replaces
default line drawing, `momentLines` gets only the item and index,
`momentPoints` gets the sibling list. -/
theorem dispatch_keyed_on_type_witness :
    Chart.renderChartItem (some ovExample) itemLineA [itemLineA] 0 =
      some (ovExample itemLineA 0) ∧
    Chart.renderChartItem (some ovExample) itemMomentLinesC
        [itemLineA, itemMomentLinesC] 1 =
      some (DrawingOp.momentLines itemMomentLinesC 1) ∧
    Chart.renderChartItem (some ovExample) itemMomentPointsD [itemMomentPointsD] 0 =
      some (DrawingOp.momentPoints itemMomentPointsD [itemMomentPointsD] 0) :=
  ⟨((dispatch_keyed_on_type (some ovExample) ovExample itemLineA
      [itemLineA] [] 0).1 rfl).1,
   ((dispatch_keyed_on_type (some ovExample) ovExample itemMomentLinesC
      [itemLineA, itemMomentLinesC] [] 1).2.1 rfl).1,
   (dispatch_keyed_on_type (some ovExample) ovExample itemMomentPointsD
      [itemMomentPointsD] [] 0).2.2 rfl⟩

/-- C9: only the line strategy is host-overridable: for an item of type
`momentLines` or `momentPoints`, dispatch with any supplied `renderLine`
override equals dispatch without one, and the result is the fixed built-in
strategy's op. -/
theorem moment_strategies_not_overridable (ov : ChartItem → Nat → DrawingOp)
    (item : ChartItem) (items : List ChartItem) (i : Nat)
    (h : item.type = "momentLines" ∨ item.type = "momentPoints") :
    Chart.renderChartItem (some ov) item items i =
      Chart.renderChartItem none item items i ∧
    (item.type = "momentLines" →
      Chart.renderChartItem (some ov) item items i =
        some (DrawingOp.momentLines item i)) ∧
    (item.type = "momentPoints" →
      Chart.renderChartItem (some ov) item items i =
        some (DrawingOp.momentPoints item items i)) := by
  rcases h with h | h <;> simp [Chart.renderChartItem, h]

/-- C9 witness: the override changes nothing for a concrete `momentLines`
item. -/
theorem moment_strategies_not_overridable_witness :
    Chart.renderChartItem (some ovExample) itemMomentLinesC [itemMomentLinesC] 0 =
      Chart.renderChartItem none itemMomentLinesC [itemMomentLinesC] 0 :=
  (moment_strategies_not_overridable ovExample itemMomentLinesC
    [itemMomentLinesC] 0 (Or.inl rfl)).1

/-- C6: an item whose `type` is none of `line`, `momentLines`, `momentPoints`
yields no drawing op from dispatch (and no error), while the rest of the
chart is unaffected: the drawings list holds `none` at its position, the
legend still carries its entry, and its `units` still contributes an axis. -/
theorem unknown_type_silently_skipped
    (ovOpt : Option (ChartItem → Nat → DrawingOp)) (item : ChartItem)
    (items : List ChartItem) (i : Nat)
    (hline : item.type ≠ "line") (hml : item.type ≠ "momentLines")
    (hmp : item.type ≠ "momentPoints") (hget : items[i]? = some item) :
    Chart.renderChartItem ovOpt item items i = none ∧
    (Chart.renderDrawings ovOpt items)[i]? = some none ∧
    (Chart.legends items)[i]? = some
      { name := item.name, symbolFill := item.getColor ()
        symbolType := "square", labelsFill := "white" } ∧
    item.units ∈ (Chart.yAxes items).map Axis.units := by
  have hnone := renderChartItem_unknown ovOpt item items i hline hml hmp
  refine ⟨hnone, ?_, ?_, ?_⟩
  · rw [renderDrawings_getElem ovOpt items i item hget, hnone]
  · simp [Chart.legends, List.getElem?_map, hget]
  · rw [mem_yAxes_units_iff]
    exact List.mem_map_of_mem _ (List.getElem?_mem hget)

/-- C6 witness: a concrete `unknownKind` item contributes no drawing yet
keeps its legend entry and axis. -/
theorem unknown_type_silently_skipped_witness :
    Chart.renderChartItem none itemUnknownE [itemUnknownE] 0 = none ∧
    (Chart.renderDrawings none [itemUnknownE])[0]? = some none ∧
    (Chart.legends [itemUnknownE])[0]? = some
      { name := itemUnknownE.name, symbolFill := itemUnknownE.getColor ()
        symbolType := "square", labelsFill := "white" } ∧
    itemUnknownE.units ∈ (Chart.yAxes [itemUnknownE]).map Axis.units :=
  unknown_type_silently_skipped none itemUnknownE [itemUnknownE] 0
    (by decide) (by decide) (by decide) rfl

/-- C2: the two-step guard ladder of `renderChart`: a missing `xAxis` prop
yields nothing regardless of item content; with an `xAxis`, an item list
whose every item has empty `points` yields the empty-state placeholder sized
to the given height; otherwise the full chart is composed. -/
theorem renderChart_guard_ladder (props : ChartProps) (width height : Nat) :
    (props.xAxis = none → Chart.renderChart props width height = none) ∧
    (∀ xa, props.xAxis = some xa →
      ((∀ it ∈ props.chartItems, it.points = []) →
        Chart.renderChart props width height = some (RenderedChart.noData height)) ∧
      ((∃ it ∈ props.chartItems, it.points ≠ []) →
        Chart.renderChart props width height = some (RenderedChart.chart width height
          props.domain props.theme xa.scale props.containerComponent
          (Chart.legends props.chartItems) xa.units (Chart.yAxes props.chartItems)
          (Chart.renderDrawings props.renderLine props.chartItems)))) := by
  refine ⟨fun h => by simp [Chart.renderChart, h], fun xa hxa => ⟨fun hempty => ?_, ?_⟩⟩
  · have hany := any_points_eq_false props.chartItems hempty
    simp [Chart.renderChart, hxa, hany]
  · rintro ⟨it, hit, hne⟩
    have hany := any_points_eq_true props.chartItems it hit hne
    simp [Chart.renderChart, hxa, hany]

/-- C2 witness: a missing `xAxis` yields nothing; with an `xAxis` but only
empty point sequences, the placeholder sized to height 42; with data, the
full composed chart. -/
theorem renderChart_guard_ladder_witness :
    Chart.renderChart propsNoXAxis 200 110 = none ∧
    Chart.renderChart propsEmptyPoints 200 42 = some (RenderedChart.noData 42) ∧
    Chart.renderChart propsWithData 200 110 = some (RenderedChart.chart 200 110
      none "material" "time" none (Chart.legends [itemLineA]) "time"
      (Chart.yAxes [itemLineA]) (Chart.renderDrawings none [itemLineA])) :=
  ⟨(renderChart_guard_ladder propsNoXAxis 200 110).1 rfl,
   ((renderChart_guard_ladder propsEmptyPoints 200 42).2
      { units := "time", scale := "time" } rfl).1
     (fun it hit => by
       simp only [propsEmptyPoints, List.mem_singleton] at hit
       rw [hit]
       rfl),
   ((renderChart_guard_ladder propsWithData 200 110).2
      { units := "time", scale := "time" } rfl).2
     ⟨itemLineA, List.mem_singleton.mpr rfl, by decide⟩⟩

/-- C7: evaluation of the unmount path at a concrete lifecycle. Mounting from
a fresh window registers bound-function 0; `componentWillUnmount` binds a
*new* function object (id 1) and passes that to `removeEventListener`, so
the listener registered on mount (id 0) is still attached after unmount, and
a resize event dispatched afterwards still runs the destroyed component's
`updateWidth`, overwriting its published width. -/
theorem unmount_leaves_mount_listener_attached :
    (Sized.componentDidMount { listeners := [], nextFnId := 0 }
        { containerElement := some 300, width := 0 }).1 = 0 ∧
    (Sized.componentDidMount { listeners := [], nextFnId := 0 }
        { containerElement := some 300, width := 0 }).2.1.listeners = [0] ∧
    (Sized.componentWillUnmount
        (Sized.componentDidMount { listeners := [], nextFnId := 0 }
          { containerElement := some 300, width := 0 }).2.1).listeners = [0] ∧
    dispatchResize
        (Sized.componentWillUnmount
          (Sized.componentDidMount { listeners := [], nextFnId := 0 }
            { containerElement := some 300, width := 0 }).2.1)
        { containerElement := some 999, width := 300 } =
      { containerElement := some 999, width := 999 } := by
  decide
